import Mathlib

/-!
Shallow embedding of the `blumbaben` formatting-toolbar core:

* `src/src/utils/domUtils.ts` — `applyFormattingOnSelection`, `updateElementValue`
* `src/src/utils/globalToolbarManager.ts` — class `GlobalToolbarManager`

Modelling conventions:

* A DOM text-input element (`HTMLInputElement | HTMLTextAreaElement`) is a
  record `Elem` carrying the fields the core reads: `value`,
  `selectionStart` / `selectionEnd` (nullable in the DOM, hence `Option Nat`),
  and the React `props.onChange` callback the manager captures at show time.
  Callback functions are identified by a `Nat` id, since the core only stores
  and later invokes them; element identity is the `eid` field.
* JavaScript `String.prototype.substring` clamps its arguments to
  `[0, length]` and swaps them when out of order; `jsSubstring` mirrors that.
* The manager's side effects are made explicit: every operation returns the
  next manager value together with the list of subscriber notifications
  `(callbackId, snapshot)` it publishes, and `applyFormat` additionally
  returns an `ApplyEffects` record describing its DOM writes (value write,
  "input" event dispatch, synthetic-event callback invocation, re-focus) and
  whether it logged the "no active element" warning.
* The single `setTimeout` slot (`hideTimeout`) is modelled as an optional
  absolute deadline against a model clock `now`; the environment may advance
  the clock (`Op.elapse`) and attempt to fire the timer (`Op.timerFire`),
  which hides only when a deadline is installed and has been reached —
  mirroring that a cleared timeout never runs and a pending one runs only
  after its delay.
-/

/-- Position record `{x, y}` (`ToolbarPosition` in `src/src/types.ts`). -/
structure ToolbarPosition where
  x : Int
  y : Int
deriving DecidableEq, Repr

/-- A DOM text-input element as seen by the core: identity, current string
value, nullable selection offsets, and the React `props.onChange` callback
(identified by a `Nat` id) that `showToolbar` captures. -/
structure Elem where
  eid : Nat
  value : String
  selectionStart : Option Nat
  selectionEnd : Option Nat
  propsOnChange : Option Nat
deriving DecidableEq, Repr

/-- The published state record (`ToolbarState` in `src/src/types.ts`). -/
structure ToolbarState where
  activeElement : Option Elem
  isVisible : Bool
  position : Option ToolbarPosition
deriving DecidableEq, Repr

/-- JavaScript `value.substring(a, b)`: both indices are clamped to
`[0, value.length]` and swapped if out of order. Indices are `Nat` here since
DOM selection offsets are non-negative. -/
def jsSubstring (s : String) (a b : Nat) : String :=
  let a' := min a s.length
  let b' := min b s.length
  String.mk ((s.data.drop (min a' b')).take (max a' b' - min a' b'))

/-- JavaScript one-argument `value.substring(a)`: the suffix from `a`
(clamped) to the end of the string. -/
def jsSubstringFrom (s : String) (a : Nat) : String :=
  jsSubstring s a s.length

/-- Embedding of `applyFormattingOnSelection` (src/src/utils/domUtils.ts,
lines 18–37): defaults missing selection offsets to 0; if
`selectionEnd > selectionStart` formats only the selected slice and
concatenates `before ++ formatter selected ++ after`, otherwise formats the
whole value. -/
def applyFormattingOnSelection (element : Elem) (formatter : String → String) : String :=
  let selectionEnd := element.selectionEnd.getD 0
  let selectionStart := element.selectionStart.getD 0
  let value := element.value
  if selectionStart < selectionEnd then
    let before := jsSubstring value 0 selectionStart
    let selected := jsSubstring value selectionStart selectionEnd
    let after := jsSubstringFrom value selectionEnd
    before ++ formatter selected ++ after
  else
    formatter value

/-- The synthetic React change event built in `updateElementValue`: it carries
the element as both `target` and `currentTarget`. -/
structure SyntheticEvent where
  currentTarget : Elem
  target : Elem
deriving DecidableEq, Repr

/-- Embedding of `updateElementValue` (src/src/utils/domUtils.ts, lines
54–72): writes `newValue` onto the element, always dispatches a DOM "input"
event, and, when an `onChange` callback is provided, invokes it with a
synthetic event carrying the (already mutated) element as both `target` and
`currentTarget`. Returns the mutated element, whether the input event was
dispatched, and the callback invocation performed (callback id and event). -/
def updateElementValue (element : Elem) (newValue : String)
    (onChange : Option Nat) : Elem × Bool × Option (Nat × SyntheticEvent) :=
  let element' := { element with value := newValue }
  (element', true,
    onChange.map (fun c => (c, { currentTarget := element', target := element' })))

/-- JavaScript `Set.prototype.add`: a no-op when the value is already a
member, otherwise appends it (JS sets iterate in insertion order). -/
def jsSetAdd (l : List Nat) (c : Nat) : List Nat :=
  if c ∈ l then l else l ++ [c]

/-- JavaScript `Set.prototype.delete`: removes the value if present. -/
def jsSetDelete (l : List Nat) (c : Nat) : List Nat :=
  l.filter (fun x => x ≠ c)

/-- Mutable fields of class `GlobalToolbarManager`
(src/src/utils/globalToolbarManager.ts, lines 84–93), plus the model clock
`now` used to give the `setTimeout` slot its deadline semantics. The pending
timeout is stored as the absolute time at which it may fire. The subscriber
`Set` is an insertion-ordered duplicate-free list of callback ids. -/
structure Manager where
  activeElementOnChange : Option Nat
  hideTimeout : Option Nat
  state : ToolbarState
  subscribers : List Nat
  now : Nat
deriving DecidableEq

/-- The manager's initial state: module initialization builds the singleton
with `{activeElement: null, isVisible: false, position: null}`, no stored
callback, no pending timer and no subscribers. -/
def initialManager : Manager where
  activeElementOnChange := none
  hideTimeout := none
  state := { activeElement := none, isVisible := false, position := none }
  subscribers := []
  now := 0

/-- Embedding of `getState` (lines 120–122): returns a snapshot copy of the
current state (copying is the identity on immutable values). -/
def getState (m : Manager) : ToolbarState :=
  m.state

/-- Embedding of the private `clearHideTimeout` (lines 167–172): clears the
pending timeout handle, so the scheduled hide can never fire. -/
def clearHideTimeout (m : Manager) : Manager :=
  { m with hideTimeout := none }

/-- A `Partial<ToolbarState>` argument to `setState`: each field is either
absent (keep the old value) or present (overwrite). -/
structure PartialToolbarState where
  activeElement : Option (Option Elem)
  isVisible : Option Bool
  position : Option (Option ToolbarPosition)

/-- Spread-merge `{ ...state, ...newState }` of a partial state over a full
state. -/
def mergeState (s : ToolbarState) (p : PartialToolbarState) : ToolbarState where
  activeElement := p.activeElement.getD s.activeElement
  isVisible := p.isVisible.getD s.isVisible
  position := p.position.getD s.position

/-- Embedding of the private `setState` (lines 174–179): merges the partial
state into the current state, then synchronously invokes every subscriber
with a fresh `getState()` snapshot. Returns the next manager and the list of
notifications `(callbackId, snapshot)` delivered. -/
def setState (m : Manager) (p : PartialToolbarState) :
    Manager × List (Nat × ToolbarState) :=
  let m' := { m with state := mergeState m.state p }
  (m', m'.subscribers.map (fun c => (c, getState m')))

/-- Embedding of `hideToolbar` (lines 124–132): clears the pending timeout,
drops the captured onChange callback, and publishes the all-null hidden
state. -/
def hideToolbar (m : Manager) : Manager × List (Nat × ToolbarState) :=
  let m1 := clearHideTimeout m
  let m2 := { m1 with activeElementOnChange := none }
  setState m2
    { activeElement := some none, isVisible := some false, position := some none }

/-- Embedding of `scheduleHide` (lines 134–137): clears any pending timeout,
then installs a fresh one that will call `hideToolbar` once `delay` has
elapsed (deadline `now + delay`). Nothing else changes; in particular the
published state is untouched. -/
def scheduleHide (m : Manager) (delay : Nat) : Manager :=
  let m1 := clearHideTimeout m
  { m1 with hideTimeout := some (m1.now + delay) }

/-- Embedding of `cancelScheduledHide` (lines 116–118): just clears the
pending timeout. -/
def cancelScheduledHide (m : Manager) : Manager :=
  clearHideTimeout m

/-- Embedding of `showToolbar` (lines 139–158): clears any pending timeout,
captures the element's `props.onChange` callback, and publishes
`{activeElement: element, isVisible: true, position: getPosition(element)}`. -/
def showToolbar (m : Manager) (element : Elem)
    (getPosition : Elem → ToolbarPosition) : Manager × List (Nat × ToolbarState) :=
  let m1 := clearHideTimeout m
  let m2 := { m1 with activeElementOnChange := element.propsOnChange }
  setState m2
    { activeElement := some (some element), isVisible := some true,
      position := some (some (getPosition element)) }

/-- Embedding of `subscribe` (lines 160–165): adds the callback to the
`Set` of subscribers. The returned unsubscribe closure deletes that same
callback from the set; `unsubscribe` below models invoking it. -/
def subscribe (m : Manager) (c : Nat) : Manager :=
  { m with subscribers := jsSetAdd m.subscribers c }

/-- Invoking the unsubscribe closure returned by `subscribe` (lines
162–164): `this.subscribers.delete(callback)`. -/
def unsubscribe (m : Manager) (c : Nat) : Manager :=
  { m with subscribers := jsSetDelete m.subscribers c }

/-- The DOM-side effects of one `applyFormat` call: whether the
"No active element found for formatting" warning was logged, the value write
`(elementId, newValue)` performed, the element on which the "input" event was
dispatched, the synthetic-event callback invocation, and the element
re-focused. -/
structure ApplyEffects where
  warned : Bool
  write : Option (Nat × String)
  inputDispatched : Option Nat
  callbackInvoked : Option (Nat × SyntheticEvent)
  focused : Option Nat
deriving DecidableEq, Repr

/-- Embedding of `applyFormat` (lines 95–114): if no active element, logs a
warning and returns without any mutation; otherwise computes the new value
via `applyFormattingOnSelection`, picks `onChange || activeElementOnChange`
as the change handler, runs `updateElementValue`, and re-focuses the element.
The manager's own fields are never written, so the manager component of the
result is the input manager in both branches. -/
def applyFormat (m : Manager) (formatter : String → String)
    (onChange : Option Nat) : Manager × ApplyEffects :=
  match m.state.activeElement with
  | none =>
      (m, { warned := true, write := none, inputDispatched := none,
            callbackInvoked := none, focused := none })
  | some activeElement =>
      let newValue := applyFormattingOnSelection activeElement formatter
      let onChangeHandler := onChange.orElse (fun _ => m.activeElementOnChange)
      let r := updateElementValue activeElement newValue onChangeHandler
      (m, { warned := false,
            write := some (activeElement.eid, newValue),
            inputDispatched := some activeElement.eid,
            callbackInvoked := r.2.2,
            focused := some activeElement.eid })

/-- An externally triggered operation on the coordinator: the public API
calls plus the two environment steps for the timer (`elapse` advances the
model clock; `timerFire` is the runtime attempting to run the scheduled
`setTimeout` callback, which happens only when a deadline is installed and
has been reached). -/
inductive Op where
  | showToolbar (element : Elem) (getPosition : Elem → ToolbarPosition)
  | hideToolbar
  | scheduleHide (delay : Nat)
  | cancelScheduledHide
  | timerFire
  | applyFormat (formatter : String → String) (onChange : Option Nat)
  | subscribe (c : Nat)
  | unsubscribe (c : Nat)
  | elapse (t : Nat)

/-- Advance the model clock by `t` milliseconds. -/
def elapseM (m : Manager) (t : Nat) : Manager :=
  { m with now := m.now + t }

/-- One operation applied to the manager, returning the next manager and the
subscriber notifications `(callbackId, snapshot)` it publishes. A
`timerFire` with no pending (or not-yet-due) deadline is the runtime's no-op:
a cleared timeout never runs. -/
def step (m : Manager) (op : Op) : Manager × List (Nat × ToolbarState) :=
  match op with
  | .showToolbar element getPosition => showToolbar m element getPosition
  | .hideToolbar => hideToolbar m
  | .scheduleHide delay => (scheduleHide m delay, [])
  | .cancelScheduledHide => (cancelScheduledHide m, [])
  | .timerFire =>
      match m.hideTimeout with
      | some deadline => if deadline ≤ m.now then hideToolbar m else (m, [])
      | none => (m, [])
  | .applyFormat formatter onChange => ((applyFormat m formatter onChange).1, [])
  | .subscribe c => (subscribe m c, [])
  | .unsubscribe c => (unsubscribe m c, [])
  | .elapse t => (elapseM m t, [])

/-- Run a sequence of operations from a manager, collecting every
notification published along the way. -/
def run (m : Manager) : List Op → Manager × List (Nat × ToolbarState)
  | [] => (m, [])
  | op :: ops =>
      let r := step m op
      let r' := run r.1 ops
      (r'.1, r.2 ++ r'.2)

/-- The visibility invariant of §3/§8 of the spec as a predicate on a state
snapshot: `isVisible` holds exactly when both `activeElement` and `position`
are present. -/
def stateInv (s : ToolbarState) : Prop :=
  s.isVisible = true ↔ (s.activeElement.isSome ∧ s.position.isSome)

instance (s : ToolbarState) : Decidable (stateInv s) := by
  unfold stateInv; infer_instance

theorem stateInv_initial : stateInv initialManager.state := by
  simp [stateInv, initialManager]

theorem hideToolbar_fst (m : Manager) :
    (hideToolbar m).1 =
      { activeElementOnChange := none, hideTimeout := none,
        state := { activeElement := none, isVisible := false, position := none },
        subscribers := m.subscribers, now := m.now } := by
  rfl

theorem showToolbar_fst (m : Manager) (element : Elem)
    (getPosition : Elem → ToolbarPosition) :
    (showToolbar m element getPosition).1 =
      { activeElementOnChange := element.propsOnChange, hideTimeout := none,
        state := { activeElement := some element, isVisible := true,
                   position := some (getPosition element) },
        subscribers := m.subscribers, now := m.now } := by
  rfl

theorem step_preserves_inv (m : Manager) (op : Op) (h : stateInv m.state) :
    stateInv (step m op).1.state ∧ ∀ p ∈ (step m op).2, stateInv p.2 := by
  cases op with
  | showToolbar element getPosition =>
      refine ⟨by simp [step, showToolbar, setState, mergeState, stateInv, getState,
        clearHideTimeout], ?_⟩
      intro p hp
      simp only [step, showToolbar, setState, List.mem_map] at hp
      obtain ⟨c, _, rfl⟩ := hp
      simp [getState, mergeState, stateInv, clearHideTimeout]
  | hideToolbar =>
      refine ⟨by simp [step, hideToolbar, setState, mergeState, stateInv, getState,
        clearHideTimeout], ?_⟩
      intro p hp
      simp only [step, hideToolbar, setState, List.mem_map] at hp
      obtain ⟨c, _, rfl⟩ := hp
      simp [getState, mergeState, stateInv, clearHideTimeout]
  | scheduleHide delay =>
      exact ⟨by simpa [step, scheduleHide, clearHideTimeout] using h, by simp [step]⟩
  | cancelScheduledHide =>
      exact ⟨by simpa [step, cancelScheduledHide, clearHideTimeout] using h, by simp [step]⟩
  | timerFire =>
      cases hT : m.hideTimeout with
      | none => exact ⟨by simpa [step, hT] using h, by simp [step, hT]⟩
      | some deadline =>
          by_cases hd : deadline ≤ m.now
          · refine ⟨by simp [step, hT, hd, hideToolbar, setState, mergeState, stateInv,
              getState, clearHideTimeout], ?_⟩
            intro p hp
            simp only [step, hT, hd, if_true, hideToolbar, setState, List.mem_map] at hp
            obtain ⟨c, _, rfl⟩ := hp
            simp [getState, mergeState, stateInv, clearHideTimeout]
          · exact ⟨by simpa [step, hT, hd] using h, by simp [step, hT, hd]⟩
  | applyFormat formatter onChange =>
      cases hA : m.state.activeElement with
      | none => exact ⟨by simpa [step, applyFormat, hA] using h, by simp [step]⟩
      | some e => exact ⟨by simpa [step, applyFormat, hA] using h, by simp [step]⟩
  | subscribe c =>
      exact ⟨by simpa [step, subscribe] using h, by simp [step]⟩
  | unsubscribe c =>
      exact ⟨by simpa [step, unsubscribe] using h, by simp [step]⟩
  | elapse t =>
      exact ⟨by simpa [step, elapseM] using h, by simp [step]⟩

theorem run_preserves_inv (ops : List Op) :
    ∀ (m : Manager), stateInv m.state →
      stateInv (run m ops).1.state ∧ ∀ p ∈ (run m ops).2, stateInv p.2 := by
  induction ops with
  | nil => intro m h; exact ⟨h, by simp [run]⟩
  | cons op ops ih =>
      intro m h
      obtain ⟨h1, h2⟩ := step_preserves_inv m op h
      obtain ⟨h3, h4⟩ := ih (step m op).1 h1
      refine ⟨h3, ?_⟩
      intro p hp
      simp only [run, List.mem_append] at hp
      cases hp with
      | inl hp => exact h2 p hp
      | inr hp => exact h4 p hp

/-- ASCII uppercase formatter, the example formatter used throughout the
spec's test properties. -/
def asciiUpper (s : String) : String :=
  String.mk (s.data.map Char.toUpper)

/-- Sample input element: value "hello world" with the selection covering
"hello", its `props.onChange` callback identified as 7. -/
def elemA : Elem where
  eid := 1
  value := "hello world"
  selectionStart := some 0
  selectionEnd := some 5
  propsOnChange := some 7

/-- Second sample input element, with no selection and no `props.onChange`. -/
def elemB : Elem where
  eid := 2
  value := "abc"
  selectionStart := none
  selectionEnd := none
  propsOnChange := none

/-- Sample positioning function returning a constant position. -/
def pfConst : Elem → ToolbarPosition :=
  fun _ => { x := 3, y := 4 }

/-- Manager obtained by showing the toolbar for `elemA` on the fresh
singleton. -/
def mShownA : Manager :=
  (showToolbar initialManager elemA pfConst).1

theorem jsSubstring_clamp (s : String) (a b : Nat) :
    jsSubstring s a b = jsSubstring s (min a s.length) (min b s.length) := by
  simp [jsSubstring, Nat.min_assoc]

theorem mem_jsSetAdd_self (l : List Nat) (c : Nat) : c ∈ jsSetAdd l c := by
  unfold jsSetAdd
  split <;> simp_all

theorem mem_jsSetAdd_of_mem (l : List Nat) (c d : Nat) (h : c ∈ l) :
    c ∈ jsSetAdd l d := by
  unfold jsSetAdd
  split <;> simp_all

theorem jsSetAdd_idem (l : List Nat) (c : Nat) :
    jsSetAdd (jsSetAdd l c) c = jsSetAdd l c := by
  unfold jsSetAdd
  split <;> simp_all [mem_jsSetAdd_self, jsSetAdd]

theorem mem_jsSetDelete (l : List Nat) (c d : Nat) (hc : c ∈ l) (h : c ≠ d) :
    c ∈ jsSetDelete l d := by
  simp [jsSetDelete, List.mem_filter, hc, h]

theorem not_mem_jsSetDelete_self (l : List Nat) (c : Nat) :
    c ∉ jsSetDelete l c := by
  simp [jsSetDelete, List.mem_filter]

/-- C1: every state reachable from the initial coordinator state by any
sequence of show, hide, scheduleHide (including its timer firing),
cancelScheduledHide, applyFormat and subscribe operations satisfies
`isVisible = true` iff both `activeElement` and `position` are non-null, and
every snapshot published to subscribers along the way satisfies the same
biconditional. -/
theorem C1_visibility_invariant (ops : List Op) :
    stateInv (run initialManager ops).1.state ∧
      ∀ p ∈ (run initialManager ops).2, stateInv p.2 :=
  run_preserves_inv ops initialManager stateInv_initial

/-- Witness for C1 at a concrete operation sequence exercising show, a
scheduled and fired hide, applyFormat and subscription. -/
theorem C1_visibility_invariant_witness :
    stateInv (run initialManager
      [Op.subscribe 0, Op.showToolbar elemA pfConst,
       Op.applyFormat asciiUpper none, Op.scheduleHide 10, Op.elapse 10,
       Op.timerFire, Op.hideToolbar]).1.state ∧
    ∀ p ∈ (run initialManager
      [Op.subscribe 0, Op.showToolbar elemA pfConst,
       Op.applyFormat asciiUpper none, Op.scheduleHide 10, Op.elapse 10,
       Op.timerFire, Op.hideToolbar]).2, stateInv p.2 :=
  C1_visibility_invariant
    [Op.subscribe 0, Op.showToolbar elemA pfConst,
     Op.applyFormat asciiUpper none, Op.scheduleHide 10, Op.elapse 10,
     Op.timerFire, Op.hideToolbar]

/-- C2: with a non-empty selection (`selectionEnd > selectionStart`, offsets
defaulting to 0 when missing) the formatting routine returns
`value[0, selectionStart) ++ formatter (value[selectionStart, selectionEnd))
++ value[selectionEnd, end)` with prefix and suffix verbatim; otherwise it
returns the formatter applied to the whole value. In particular on
"hello world" with selection [0, 5) and the uppercase formatter it returns
"HELLO world", and with caret selection 3 = 3 it returns "HELLO WORLD". -/
theorem C2_selection_formatting (value : String) (formatter : String → String)
    (ss se : Option Nat) (eid pc : Nat) :
    (se.getD 0 > ss.getD 0 →
      applyFormattingOnSelection ⟨eid, value, ss, se, some pc⟩ formatter =
        jsSubstring value 0 (ss.getD 0) ++
          formatter (jsSubstring value (ss.getD 0) (se.getD 0)) ++
          jsSubstringFrom value (se.getD 0))
    ∧ (¬ se.getD 0 > ss.getD 0 →
        applyFormattingOnSelection ⟨eid, value, ss, se, some pc⟩ formatter =
          formatter value)
    ∧ applyFormattingOnSelection ⟨0, "hello world", some 0, some 5, none⟩ asciiUpper
        = "HELLO world"
    ∧ applyFormattingOnSelection ⟨0, "hello world", some 3, some 3, none⟩ asciiUpper
        = "HELLO WORLD" := by
  refine ⟨?_, ?_, by decide, by decide⟩
  · intro h
    simp [applyFormattingOnSelection, h]
  · intro h
    simp only [gt_iff_lt, not_lt] at h
    simp [applyFormattingOnSelection, Nat.not_lt.2 h]

/-- Witness for C2 on the selection branch of "hello world". -/
theorem C2_selection_formatting_witness :
    applyFormattingOnSelection ⟨1, "hello world", some 0, some 5, some 7⟩ asciiUpper =
      jsSubstring "hello world" 0 0 ++
        asciiUpper (jsSubstring "hello world" 0 5) ++
        jsSubstringFrom "hello world" 5 :=
  (C2_selection_formatting "hello world" asciiUpper (some 0) (some 5) 1 7).1
    (by decide)

/-- C10: the selection-formatting routine is total over malformed offsets:
with inverted offsets (`selectionStart > selectionEnd`) the whole-value
branch applies the formatter to the entire value, and offsets beyond the
string length are clamped by the substring operations, the result still
being prefix ++ formatter middle ++ suffix (totality holds by construction —
the embedding is a total Lean function, mirroring that the code cannot throw
when the formatter does not). -/
theorem C10_total_on_malformed_offsets (value : String)
    (formatter : String → String) (ss se : Option Nat) (eid pc : Nat) :
    (ss.getD 0 > se.getD 0 →
      applyFormattingOnSelection ⟨eid, value, ss, se, some pc⟩ formatter =
        formatter value)
    ∧ (se.getD 0 > ss.getD 0 →
        applyFormattingOnSelection ⟨eid, value, ss, se, some pc⟩ formatter =
          jsSubstring value 0 (min (ss.getD 0) value.length) ++
            formatter (jsSubstring value (min (ss.getD 0) value.length)
              (min (se.getD 0) value.length)) ++
            jsSubstringFrom value (min (se.getD 0) value.length)) := by
  constructor
  · intro h
    simp [applyFormattingOnSelection, Nat.not_lt.2 (Nat.le_of_lt h)]
  · intro h
    have h2 : jsSubstringFrom value (se.getD 0) =
        jsSubstringFrom value (min (se.getD 0) value.length) := by
      unfold jsSubstringFrom
      rw [jsSubstring_clamp]
      simp [Nat.min_assoc]
    simp only [applyFormattingOnSelection, h, if_pos h]
    rw [jsSubstring_clamp value 0, jsSubstring_clamp value (ss.getD 0) (se.getD 0), h2]
    simp

/-- Witness for C10 at inverted offsets on "ab". -/
theorem C10_total_on_malformed_offsets_witness :
    applyFormattingOnSelection ⟨0, "ab", some 3, some 1, some 5⟩ asciiUpper =
      asciiUpper "ab" :=
  (C10_total_on_malformed_offsets "ab" asciiUpper (some 3) (some 1) 0 5).1
    (by decide)

/-- C3 counterexample: the claim fails on the code. Subscribing the same
callback (id 0) twice and then invoking a single unsubscribe leaves the
subscriber set empty, so the callback is NOT invoked on the next state
transition — contradicting the claim that after unsubscribing only one of
the two registrations the callback is still invoked on every subsequent
transition. -/
theorem C3_duplicate_subscribe_counterexample :
    (unsubscribe (subscribe (subscribe initialManager 0) 0) 0).subscribers = []
    ∧ (step (unsubscribe (subscribe (subscribe initialManager 0) 0) 0)
        (Op.showToolbar elemA pfConst)).2 = [] := by
  constructor <;> rfl

/-- C3 (amended): `subscribe` registers callbacks in a `Set`, so subscribing
a callback that is already subscribed collapses into a single registration
(a duplicate subscribe is a no-op and one unsubscribe removes the callback
entirely), while subscriptions of distinct callbacks are independent:
unsubscribing one does not remove the other, which is still invoked on every
subsequent state transition. -/
theorem C3_subscribe_set_semantics (c d : Nat) (m : Manager) (h : c ≠ d) :
    subscribe (subscribe m c) c = subscribe m c
    ∧ c ∉ (unsubscribe (subscribe (subscribe m c) c) c).subscribers
    ∧ c ∈ (unsubscribe (subscribe (subscribe m c) d) d).subscribers
    ∧ ∀ (element : Elem) (getPosition : Elem → ToolbarPosition),
        (c, ({ activeElement := some element, isVisible := true,
               position := some (getPosition element) } : ToolbarState)) ∈
          (step (unsubscribe (subscribe (subscribe m c) d) d)
            (Op.showToolbar element getPosition)).2 := by
  have hmem : c ∈ (unsubscribe (subscribe (subscribe m c) d) d).subscribers := by
    simp only [unsubscribe, subscribe]
    exact mem_jsSetDelete _ c d
      (mem_jsSetAdd_of_mem _ c d (mem_jsSetAdd_self m.subscribers c)) h
  refine ⟨?_, ?_, hmem, ?_⟩
  · simp [subscribe, jsSetAdd_idem]
  · simp only [unsubscribe, subscribe]
    exact not_mem_jsSetDelete_self _ c
  · intro element getPosition
    simp only [step, showToolbar, setState, clearHideTimeout, getState, mergeState]
    exact List.mem_map_of_mem _ hmem

/-- Witness for C3 (amended) at callbacks 0 ≠ 1: callback 0 remains
subscribed after unsubscribing callback 1, and is notified with the shown
snapshot on the next transition. -/
theorem C3_subscribe_set_semantics_witness :
    ((0 : Nat), ({ activeElement := some elemA, isVisible := true,
                   position := some (pfConst elemA) } : ToolbarState)) ∈
      (step (unsubscribe (subscribe (subscribe initialManager 0) 1) 1)
        (Op.showToolbar elemA pfConst)).2 :=
  (C3_subscribe_set_semantics 0 1 initialManager (by decide)).2.2.2 elemA pfConst

/-- C4: when no active element is present, `applyFormat` logs the warning
and performs no mutation: no value write, no "input" event, no change
callback, no focus call, the manager (hence the coordinator state) is
unchanged, no subscriber is notified, and — the embedding being a total
function — no error is thrown. -/
theorem C4_applyFormat_no_active_element (m : Manager)
    (formatter : String → String) (onChange : Option Nat)
    (h : m.state.activeElement = none) :
    applyFormat m formatter onChange =
      (m, { warned := true, write := none, inputDispatched := none,
            callbackInvoked := none, focused := none })
    ∧ step m (Op.applyFormat formatter onChange) = (m, []) := by
  constructor <;> simp [applyFormat, h, step]

/-- Witness for C4 on the fresh (never-shown) coordinator. -/
theorem C4_applyFormat_no_active_element_witness :
    applyFormat initialManager asciiUpper none =
      (initialManager,
        { warned := true, write := none, inputDispatched := none,
          callbackInvoked := none, focused := none })
    ∧ step initialManager (Op.applyFormat asciiUpper none) =
        (initialManager, []) :=
  C4_applyFormat_no_active_element initialManager asciiUpper none rfl

/-- C9: `applyFormat` never changes the coordinator's fields and never
notifies subscribers: whether or not an active element is present, the
manager after the call equals the manager before it, the `getState` snapshot
is unchanged, and the operation publishes no notifications. -/
theorem C9_applyFormat_frame (m : Manager) (formatter : String → String)
    (onChange : Option Nat) :
    (applyFormat m formatter onChange).1 = m
    ∧ getState (applyFormat m formatter onChange).1 = getState m
    ∧ step m (Op.applyFormat formatter onChange) = (m, []) := by
  cases h : m.state.activeElement <;>
    simp [applyFormat, h, step, getState]

/-- C5: the deferred-hide timer is single-slot with last-writer-wins.
Rescheduling replaces the previous deadline; after `scheduleHide 100` then
`scheduleHide 50` on the fresh manager the only deadline is 50 and the timer
cannot fire before it, fires (hiding) once it is reached, after which no
further hide can ever fire from it; and `showToolbar` cancels a pending
deferred hide: in `show A; scheduleHide 500; show B` with fewer than 500 ms
elapsed, no hide can fire before the second show, the final active element
is `B`, and no hide ever fires afterwards from the cancelled schedule. -/
theorem C5_single_timer_slot (m : Manager) (d₁ d₂ : Nat) (A B : Elem)
    (getPosition : Elem → ToolbarPosition) (e : Nat) (he : e < 500) :
    (scheduleHide (scheduleHide m d₁) d₂).hideTimeout = some (m.now + d₂)
    ∧ ((scheduleHide (scheduleHide initialManager 100) 50).hideTimeout = some 50
       ∧ (∀ u, u < 50 →
            step (elapseM (scheduleHide (scheduleHide initialManager 100) 50) u)
                Op.timerFire =
              (elapseM (scheduleHide (scheduleHide initialManager 100) 50) u, []))
       ∧ (∀ u, 50 ≤ u →
            ((step (elapseM (scheduleHide (scheduleHide initialManager 100) 50) u)
                Op.timerFire).1.hideTimeout = none
             ∧ (step (elapseM (scheduleHide (scheduleHide initialManager 100) 50) u)
                  Op.timerFire).1.state =
                 { activeElement := none, isVisible := false, position := none }
             ∧ ∀ t, step (elapseM (step (elapseM
                      (scheduleHide (scheduleHide initialManager 100) 50) u)
                      Op.timerFire).1 t) Op.timerFire =
                  (elapseM (step (elapseM
                      (scheduleHide (scheduleHide initialManager 100) 50) u)
                      Op.timerFire).1 t, []))))
    ∧ (step (elapseM (scheduleHide (showToolbar m A getPosition).1 500) e)
          Op.timerFire =
        (elapseM (scheduleHide (showToolbar m A getPosition).1 500) e, [])
       ∧ (showToolbar (elapseM (scheduleHide (showToolbar m A getPosition).1 500) e)
            B getPosition).1.state.activeElement = some B
       ∧ (showToolbar (elapseM (scheduleHide (showToolbar m A getPosition).1 500) e)
            B getPosition).1.hideTimeout = none
       ∧ ∀ t, step (elapseM (showToolbar (elapseM
              (scheduleHide (showToolbar m A getPosition).1 500) e)
              B getPosition).1 t) Op.timerFire =
            (elapseM (showToolbar (elapseM
              (scheduleHide (showToolbar m A getPosition).1 500) e)
              B getPosition).1 t, [])) := by
  refine ⟨rfl, ⟨rfl, ?_, ?_⟩, ?_, ?_⟩
  · intro u hu
    simp only [step, scheduleHide, clearHideTimeout, elapseM, initialManager]
    rw [if_neg]
    omega
  · intro u hu
    simp only [step, scheduleHide, clearHideTimeout, elapseM, initialManager]
    rw [if_pos]
    · exact ⟨rfl, rfl, fun t => rfl⟩
    · omega
  · simp only [step, scheduleHide, clearHideTimeout, elapseM, showToolbar,
      setState, mergeState, getState]
    rw [if_neg]
    omega
  · exact ⟨rfl, rfl, fun t => rfl⟩

/-- Witness for C5 at concrete arguments (reschedule with delays 3 then 4,
elements `elemA`/`elemB`, 100 ms elapsed before the second show). -/
theorem C5_single_timer_slot_witness :
    (scheduleHide (scheduleHide initialManager 3) 4).hideTimeout = some 4 :=
  (C5_single_timer_slot initialManager 3 4 elemA elemB pfConst 100
    (by decide)).1

/-- C6: `scheduleHide d` followed by `cancelScheduledHide` before `d` elapses
leaves the coordinator state untouched forever after: the cancel clears the
deadline and the timer can never fire afterwards, so no hide ever occurs
from that schedule; moreover `scheduleHide` never hides synchronously — the
state when it returns equals the state before the call, even for delay 0. -/
theorem C6_cancel_scheduled_hide (m : Manager) (d e : Nat) (he : e < d) :
    (scheduleHide m d).state = m.state
    ∧ (scheduleHide m 0).state = m.state
    ∧ (cancelScheduledHide (elapseM (scheduleHide m d) e)).state = m.state
    ∧ (cancelScheduledHide (elapseM (scheduleHide m d) e)).hideTimeout = none
    ∧ ∀ t, step (elapseM (cancelScheduledHide (elapseM (scheduleHide m d) e)) t)
          Op.timerFire =
        (elapseM (cancelScheduledHide (elapseM (scheduleHide m d) e)) t, []) :=
  ⟨rfl, rfl, rfl, rfl, fun t => rfl⟩

/-- Witness for C6: schedule a hide for 5 ms on the shown manager and cancel
it after 2 ms. -/
theorem C6_cancel_scheduled_hide_witness :
    (scheduleHide mShownA 5).state = mShownA.state
    ∧ (scheduleHide mShownA 0).state = mShownA.state
    ∧ (cancelScheduledHide (elapseM (scheduleHide mShownA 5) 2)).state =
        mShownA.state
    ∧ (cancelScheduledHide (elapseM (scheduleHide mShownA 5) 2)).hideTimeout = none
    ∧ ∀ t, step (elapseM (cancelScheduledHide (elapseM (scheduleHide mShownA 5) 2)) t)
          Op.timerFire =
        (elapseM (cancelScheduledHide (elapseM (scheduleHide mShownA 5) 2)) t, []) :=
  C6_cancel_scheduled_hide mShownA 5 2 (by decide)

/-- C7: `hideToolbar` is idempotent in state — two consecutive calls end in
the same manager as one call, whose state is the all-null hidden state — and
the second call still publishes that identical hidden snapshot to every
current subscriber (redundant transitions are not suppressed): its
notification list sends the hidden state to exactly the subscriber set, the
same list the first call sent. -/
theorem C7_hide_idempotent (m : Manager) :
    (hideToolbar (hideToolbar m).1).1 = (hideToolbar m).1
    ∧ (hideToolbar m).1.state =
        { activeElement := none, isVisible := false, position := none }
    ∧ (hideToolbar (hideToolbar m).1).2 =
        m.subscribers.map (fun c =>
          (c, { activeElement := none, isVisible := false, position := none }))
    ∧ (hideToolbar (hideToolbar m).1).2 = (hideToolbar m).2 :=
  ⟨rfl, rfl, rfl, rfl⟩

/-- C8: when an active element is present, `applyFormat` writes the
formatted value to it, dispatches the DOM "input" event on it, invokes the
preferred change callback — the `onChange` argument if supplied, else the
callback captured at show time, else none — with a synthetic event carrying
the updated element as both `target` and `currentTarget`, and re-focuses the
element. -/
theorem C8_applyFormat_notification (m : Manager)
    (formatter : String → String) (onChange : Option Nat) (el : Elem)
    (h : m.state.activeElement = some el) :
    applyFormat m formatter onChange =
      (m, { warned := false,
            write := some (el.eid, applyFormattingOnSelection el formatter),
            inputDispatched := some el.eid,
            callbackInvoked :=
              (onChange.orElse (fun _ => m.activeElementOnChange)).map
                (fun c =>
                  (c, { currentTarget :=
                          { el with value := applyFormattingOnSelection el formatter },
                        target :=
                          { el with value := applyFormattingOnSelection el formatter } })),
            focused := some el.eid }) := by
  simp [applyFormat, h, updateElementValue]

/-- Witness for C8 on the shown manager (active element `elemA`, uppercase
formatter, no override — the callback captured at show time, id 7, is
invoked). -/
theorem C8_applyFormat_notification_witness :
    applyFormat mShownA asciiUpper none =
      (mShownA,
        { warned := false,
          write := some (elemA.eid, applyFormattingOnSelection elemA asciiUpper),
          inputDispatched := some elemA.eid,
          callbackInvoked :=
            ((none : Option Nat).orElse (fun _ => mShownA.activeElementOnChange)).map
              (fun c =>
                (c, { currentTarget :=
                        { elemA with value := applyFormattingOnSelection elemA asciiUpper },
                      target :=
                        { elemA with value := applyFormattingOnSelection elemA asciiUpper } })),
          focused := some elemA.eid }) :=
  C8_applyFormat_notification mShownA asciiUpper none elemA rfl
